import Mathlib

/-!
Verification of the social-graph orchestration layer: a shallow embedding of
the cache layer (cache.py), the store client and analytics gateway
(database.py) and the graph service (services.py), with theorems settling the
frozen specification claims.

Conventions of the embedding:
* machine state is explicit: the key-value cache is an association list, the
  graph store is a structure of user nodes and relationship edges;
* fallible operations return `Except`; a Python exception that escapes a
  function is an `Except.error`, a caught-and-logged exception is an `ok`
  result carrying the degraded value;
* the order of externally visible effects of a service operation is recorded
  as a list of `Event`s mirroring the order of `await` calls in the source.
-/

/-! ### Key-value cache state (the data held by the cache store) -/

/-- The cache store contents: an association list from keys to string values.
Values are serialized blobs; TTLs are not modelled (no clock). -/
abbrev Cache := List (String × String)

/-- Look up a key in the cache store. -/
def cacheGet : Cache → String → Option String
  | [], _ => none
  | (k, v) :: rest, key => if k == key then some v else cacheGet rest key

/-- Remove a key from the cache store (redis DEL). -/
def cacheDelete (c : Cache) (k : String) : Cache :=
  c.filter (fun p => p.1 != k)

/-- Write a key in the cache store, replacing any previous value (redis SETEX;
the TTL is not modelled). -/
def cacheSet (c : Cache) (k v : String) : Cache :=
  (k, v) :: cacheDelete c k

/-- Redis glob-style pattern matching on characters, as used by SCAN MATCH:
a `*` matches any (possibly empty) run of characters.  The fuel argument only
makes the recursion structural; every recursive call shrinks the combined
input by at least one, so `pattern + key + 1` fuel never runs out. -/
def globMatchAux : Nat → List Char → List Char → Bool
  | 0, _, _ => false
  | _ + 1, [], [] => true
  | _ + 1, [], _ :: _ => false
  | fuel + 1, p :: ps, [] => p == '*' && globMatchAux fuel ps []
  | fuel + 1, p :: ps, c :: ks =>
    if p == '*' then globMatchAux fuel ps (c :: ks) || globMatchAux fuel (p :: ps) ks
    else p == c && globMatchAux fuel ps ks

/-- Redis glob-style pattern matching on strings. -/
def globMatch (pat key : String) : Bool :=
  globMatchAux (pat.data.length + key.data.length + 1) pat.data key.data

/-! ### RedisCache client (cache.py)

`RedisClient` is the client object (`self`): its only modelled state is
whether `self.redis_client` has been set.  `RedisBehavior` is the external
cache store for one call: whether connection establishment fails, whether the
issued command fails, the store contents, and the TTL table. -/

/-- The `RedisCache` instance state: whether `self.redis_client` is set. -/
structure RedisClient where
  connected : Bool
deriving DecidableEq, Repr

/-- External behavior of the cache store during one operation. -/
structure RedisBehavior where
  connectFails : Bool
  opFails : Bool
  store : Cache
  ttlOf : String → Int

/-- Errors that escape the cache layer to the caller. -/
inductive CacheError where
  | connectionFailed
deriving DecidableEq, Repr

/-- `RedisCache.connect`: on failure it logs and RE-RAISES (cache.py line 37). -/
def RedisCache.connect (b : RedisBehavior) : Except CacheError RedisClient :=
  if b.connectFails then Except.error CacheError.connectionFailed
  else Except.ok (RedisClient.mk true)

/-- The `if not self.redis_client: await self.connect()` prelude that every
operation runs OUTSIDE its try/except block. -/
def ensureConnected (cl : RedisClient) (b : RedisBehavior) :
    Except CacheError RedisClient :=
  if cl.connected then Except.ok cl else RedisCache.connect b

/-- The client state after a successful `ensureConnected`. -/
def connResult (cl : RedisClient) : RedisClient :=
  if cl.connected then cl else RedisClient.mk true

/-- `RedisCache.get`: command failures are caught and become `none`. -/
def RedisCache.get (cl : RedisClient) (b : RedisBehavior) (key : String) :
    Except CacheError (RedisClient × Option String) :=
  match ensureConnected cl b with
  | Except.error e => Except.error e
  | Except.ok c =>
    if b.opFails then Except.ok (c, none)
    else Except.ok (c, cacheGet b.store key)

/-- `RedisCache.set`: returns the new store and True, or on a caught command
failure the unchanged store and False. -/
def RedisCache.set (cl : RedisClient) (b : RedisBehavior) (key value : String) :
    Except CacheError (RedisClient × Cache × Bool) :=
  match ensureConnected cl b with
  | Except.error e => Except.error e
  | Except.ok c =>
    if b.opFails then Except.ok (c, b.store, false)
    else Except.ok (c, cacheSet b.store key value, true)

/-- `RedisCache.delete`: command failures are caught; the store is unchanged. -/
def RedisCache.delete (cl : RedisClient) (b : RedisBehavior) (key : String) :
    Except CacheError (RedisClient × Cache) :=
  match ensureConnected cl b with
  | Except.error e => Except.error e
  | Except.ok c =>
    if b.opFails then Except.ok (c, b.store)
    else Except.ok (c, cacheDelete b.store key)

/-- `RedisCache.delete_pattern`: SCAN + DEL of every key matching the glob;
command failures are caught and leave the store as it was. -/
def RedisCache.delete_pattern (cl : RedisClient) (b : RedisBehavior) (pat : String) :
    Except CacheError (RedisClient × Cache) :=
  match ensureConnected cl b with
  | Except.error e => Except.error e
  | Except.ok c =>
    if b.opFails then Except.ok (c, b.store)
    else Except.ok (c, b.store.filter (fun p => !(globMatch pat p.1)))

/-- `RedisCache.get_many`: MGET keeping only present keys; a caught command
failure yields the empty map. -/
def RedisCache.get_many (cl : RedisClient) (b : RedisBehavior) (keys : List String) :
    Except CacheError (RedisClient × List (String × String)) :=
  match ensureConnected cl b with
  | Except.error e => Except.error e
  | Except.ok c =>
    if b.opFails then Except.ok (c, [])
    else Except.ok (c, keys.filterMap (fun k => (cacheGet b.store k).map (fun v => (k, v))))

/-- `RedisCache.set_many`: pipelined SETEX of every pair; a caught command
failure leaves the store unchanged and returns False. -/
def RedisCache.set_many (cl : RedisClient) (b : RedisBehavior)
    (mapping : List (String × String)) :
    Except CacheError (RedisClient × Cache × Bool) :=
  match ensureConnected cl b with
  | Except.error e => Except.error e
  | Except.ok c =>
    if b.opFails then Except.ok (c, b.store, false)
    else Except.ok (c, mapping.foldl (fun st kv => cacheSet st kv.1 kv.2) b.store, true)

/-- `RedisCache.increment`: INCRBY; a missing key starts from the amount, a
non-integer value or a command failure is caught and yields 0. -/
def RedisCache.increment (cl : RedisClient) (b : RedisBehavior) (key : String)
    (amount : Int) : Except CacheError (RedisClient × Cache × Int) :=
  match ensureConnected cl b with
  | Except.error e => Except.error e
  | Except.ok c =>
    if b.opFails then Except.ok (c, b.store, 0)
    else
      match cacheGet b.store key with
      | none => Except.ok (c, cacheSet b.store key (toString amount), amount)
      | some v =>
        match v.toInt? with
        | some n => Except.ok (c, cacheSet b.store key (toString (n + amount)), n + amount)
        | none => Except.ok (c, b.store, 0)

/-- `RedisCache.get_ttl`: TTL; a caught command failure yields -1. -/
def RedisCache.get_ttl (cl : RedisClient) (b : RedisBehavior) (key : String) :
    Except CacheError (RedisClient × Int) :=
  match ensureConnected cl b with
  | Except.error e => Except.error e
  | Except.ok c =>
    if b.opFails then Except.ok (c, -1)
    else Except.ok (c, b.ttlOf key)

/-! ### Query-text construction (services.py update_user, database.py
shortest_path and bulk_create_nodes)

These definitions reproduce exactly how the Python source builds the query
strings: `update_user` interpolates the update-dict KEYS into the SET clause
with an f-string, `shortest_path` interpolates `max_hops` with `%d`, and
`bulk_create_nodes` interpolates the label with an f-string.  Values travel
separately in the params dictionaries. -/

/-- The SET clause of `update_user`: `", ".join(f"u.{key} = ${key}" ...)`. -/
def update_user_set_clause (ks : List String) : String :=
  String.intercalate ", " (ks.map (fun key => "u." ++ key ++ " = $" ++ key))

/-- The full `update_user` query text, a function of the update dictionary. -/
def update_user_query (updates : List (String × String)) : String :=
  "\n        MATCH (u:User \x7bid: $id\x7d)\n        SET " ++
    update_user_set_clause (updates.map Prod.fst) ++
    "\n        RETURN u\n        "

/-- The parameter dictionary of `update_user`. -/
def update_user_params (user_id : String) (updates : List (String × String)) :
    List (String × String) :=
  ("id", user_id) :: updates

/-- The `shortest_path` query text: `max_hops` is spliced in with `%d`. -/
def shortest_path_query (max_hops : Nat) : String :=
  "\n        MATCH (start:User \x7bid: $start_id\x7d), (end:User \x7bid: $end_id\x7d)\n        MATCH path = shortestPath((start)-[*.." ++
    toString max_hops ++
    "]-(end))\n        RETURN path,\n               [node in nodes(path) | node.id] as node_ids,\n               length(path) as path_length\n        "

/-- The query and params pair sent to the store by `shortest_path`. -/
def shortest_path_call (start_id end_id : String) (max_hops : Nat) :
    String × List (String × String) :=
  (shortest_path_query max_hops, [("start_id", start_id), ("end_id", end_id)])

/-- The `bulk_create_nodes` query text: the label is spliced in. -/
def bulk_create_nodes_query (label : String) : String :=
  "\n        UNWIND $nodes as node\n        CREATE (n:" ++ label ++
    ")\n        SET n = node\n        RETURN n.id as id\n        "

/-- The query and params pair sent to the store by `bulk_create_nodes`; the
node property maps travel only in the params. -/
def bulk_create_nodes_call (nodes : List (List (String × String))) (label : String) :
    String × List (String × List (List (String × String))) :=
  (bulk_create_nodes_query label, [("nodes", nodes)])

/-! ### Graph store state and the effect of each Cypher write (database.py,
services.py)

`GraphState` is the graph store contents: `User` nodes with free-form
property bags, and `RELATES_TO` edges carrying the properties created by
`create_relationship`. -/

/-- A `User` node: opaque id plus a free-form property bag. -/
structure UserNode where
  id : String
  props : List (String × String)
deriving DecidableEq, Repr

/-- A `RELATES_TO` edge as created by `create_relationship`. -/
structure Edge where
  eid : String
  src : String
  dst : String
  type : String
  weight : ℚ
  properties : List (String × String)
  created_at : String
  updated_at : String
deriving DecidableEq, Repr

/-- The graph store contents. -/
structure GraphState where
  users : List UserNode
  rels : List Edge
deriving DecidableEq, Repr

/-- Whether `MATCH (u:User {id: $uid})` finds a node. -/
def user_exists (g : GraphState) (uid : String) : Bool :=
  g.users.any (fun u => u.id == uid)

/-- The node found by `MATCH (u:User {id: $uid})`, if any. -/
def findUser (g : GraphState) (uid : String) : Option UserNode :=
  g.users.find? (fun u => u.id == uid)

/-- `OPTIONAL MATCH (u)-[r]-() RETURN count(r)`: the number of edges incident
to the node. -/
def node_degree (g : GraphState) (uid : String) : Nat :=
  (g.rels.filter (fun e => e.src == uid || e.dst == uid)).length

/-- Write a key of a property bag, replacing any previous value. -/
def setProp (ps : List (String × String)) (k v : String) : List (String × String) :=
  (k, v) :: ps.filter (fun p => p.1 != k)

/-- Effect on the graph of the `CREATE (u:User {...})` write of `create_user`. -/
def db_create_user (g : GraphState) (uid : String) (props : List (String × String)) :
    GraphState :=
  { g with users := g.users ++ [UserNode.mk uid props] }

/-- Effect on the graph of the `MATCH (u:User {id: $id}) SET ...` write of
`update_user`: each update key is set on the matched node. -/
def db_update_user (g : GraphState) (uid : String) (updates : List (String × String)) :
    GraphState :=
  { g with users := g.users.map (fun u =>
      if u.id == uid then
        UserNode.mk u.id (updates.foldl (fun ps kv => setProp ps kv.1 kv.2) u.props)
      else u) }

/-- Effect of `MATCH (u:User {id: $id}) DETACH DELETE u`: the node and every
incident edge are removed. -/
def db_delete_user (g : GraphState) (uid : String) : GraphState :=
  { users := g.users.filter (fun u => u.id != uid),
    rels := g.rels.filter (fun e => e.src != uid && e.dst != uid) }

/-- The input of `create_relationship` (models.RelationshipCreate). -/
structure RelationshipCreate where
  from_user_id : String
  to_user_id : String
  type : String
  weight : ℚ
  properties : List (String × String)
  bidirectional : Bool
deriving DecidableEq, Repr

/-- An edge as written by the `CREATE (a)-[r:RELATES_TO {...}]->(b)` clause:
created_at and updated_at both carry the single `now` timestamp. -/
def mkEdge (rid from_id to_id ty : String) (weight : ℚ)
    (properties : List (String × String)) (now : String) : Edge :=
  Edge.mk rid from_id to_id ty weight properties now now

/-- The forward edge created by `create_relationship`. -/
def forwardEdge (d : RelationshipCreate) (rid now : String) : Edge :=
  mkEdge rid d.from_user_id d.to_user_id d.type d.weight d.properties now

/-- The reverse edge created by `create_relationship` when bidirectional. -/
def backwardEdge (d : RelationshipCreate) (rid2 now : String) : Edge :=
  mkEdge rid2 d.to_user_id d.from_user_id d.type d.weight d.properties now

/-- Effect on the graph of the `create_relationship` write: `MATCH` of both
endpoints, then `CREATE` of one edge — or of two edges with the two distinct
generated ids and the same timestamp when `bidirectional` is set.  `none`
means the `MATCH` found no pair of endpoints and nothing was created (the
transaction still returns, with zero rows). -/
def db_create_relationship (g : GraphState) (d : RelationshipCreate)
    (rel_id rel_id2 now : String) : Option GraphState :=
  if user_exists g d.from_user_id && user_exists g d.to_user_id then
    some (if d.bidirectional then
            { g with rels := g.rels ++ [forwardEdge d rel_id now, backwardEdge d rel_id2 now] }
          else
            { g with rels := g.rels ++ [forwardEdge d rel_id now] })
  else none

/-- Effect of `MATCH ()-[r:RELATES_TO {id: $id}]-() DELETE r`: every edge
carrying that id is removed. -/
def db_delete_relationship (g : GraphState) (rid : String) : GraphState :=
  { g with rels := g.rels.filter (fun e => e.eid != rid) }

/-! ### The service layer (services.py)

`World` bundles the graph store, the cache store and whether the next store
write transaction succeeds.  Each service operation returns its result, the
new world, and the ordered list of externally visible effects. -/

/-- One externally visible effect of a service operation, in issue order. -/
inductive Event where
  | storeWrite
  | storeRead
  | cacheInvalidate (key : String)
  | cachePopulate (key : String)
deriving DecidableEq, Repr

/-- The two external stores plus the outcome of the next write transaction. -/
structure World where
  graph : GraphState
  cache : Cache
  storeOk : Bool
deriving DecidableEq, Repr

/-- `SocialGraphService.create_user`: store write first; on store failure the
exception propagates before any cache call; on success the (defensive)
`user:<id>` cache delete follows. -/
def create_user (w : World) (uid : String) (props : List (String × String)) :
    Except Unit String × World × List Event :=
  if w.storeOk then
    (Except.ok uid,
     { w with graph := db_create_user w.graph uid props,
              cache := cacheDelete w.cache ("user:" ++ uid) },
     [Event.storeWrite, Event.cacheInvalidate ("user:" ++ uid)])
  else (Except.error (), w, [Event.storeWrite])

/-- `SocialGraphService.update_user`: store write, then `user:<id>` cache
delete.  If the node does not exist the write returns zero rows, the cache
delete still runs, and only afterwards does `result[0]` raise. -/
def update_user (w : World) (uid : String) (updates : List (String × String)) :
    Except Unit Unit × World × List Event :=
  if w.storeOk then
    ((if user_exists w.graph uid then Except.ok () else Except.error ()),
     { w with graph := db_update_user w.graph uid updates,
              cache := cacheDelete w.cache ("user:" ++ uid) },
     [Event.storeWrite, Event.cacheInvalidate ("user:" ++ uid)])
  else (Except.error (), w, [Event.storeWrite])

/-- `SocialGraphService.delete_user`: cascading store delete, then `user:<id>`
cache delete. -/
def delete_user (w : World) (uid : String) : World × List Event :=
  if w.storeOk then
    ({ w with graph := db_delete_user w.graph uid,
              cache := cacheDelete w.cache ("user:" ++ uid) },
     [Event.storeWrite, Event.cacheInvalidate ("user:" ++ uid)])
  else (w, [Event.storeWrite])

/-- `SocialGraphService.create_relationship`: store write, then cache deletes
of `user:<from>:relationships` and `user:<to>:relationships` — note the keys
carry NO `:<type|all>` suffix.  On store failure the exception propagates
before any cache call; if the endpoint `MATCH` found nothing the deletes
still run and `result[0]` raises afterwards. -/
def create_relationship (w : World) (d : RelationshipCreate)
    (rel_id rel_id2 now : String) : Except Unit Edge × World × List Event :=
  if w.storeOk then
    let invalidated :=
      cacheDelete (cacheDelete w.cache ("user:" ++ d.from_user_id ++ ":relationships"))
        ("user:" ++ d.to_user_id ++ ":relationships")
    let tr := [Event.storeWrite,
               Event.cacheInvalidate ("user:" ++ d.from_user_id ++ ":relationships"),
               Event.cacheInvalidate ("user:" ++ d.to_user_id ++ ":relationships")]
    match db_create_relationship w.graph d rel_id rel_id2 now with
    | some g2 => (Except.ok (forwardEdge d rel_id now),
                  { w with graph := g2, cache := invalidated }, tr)
    | none => (Except.error (), { w with cache := invalidated }, tr)
  else (Except.error (), w, [Event.storeWrite])

/-- `SocialGraphService.delete_relationship`: store delete only — the method
issues NO cache operation at all. -/
def delete_relationship (w : World) (rid : String) : World × List Event :=
  if w.storeOk then
    ({ w with graph := db_delete_relationship w.graph rid }, [Event.storeWrite])
  else (w, [Event.storeWrite])

/-- Stand-in for `json.dumps(user_data)`: an opaque serialization of the node
together with its computed degree. -/
def serializeUser (u : UserNode) (deg : Nat) : String :=
  u.id ++ "#" ++ toString deg ++ "#" ++
    String.intercalate ";" (u.props.map (fun kv => kv.1 ++ "=" ++ kv.2))

/-- `SocialGraphService.get_user`: cache-aside read.  Cache hit returns the
cached blob; on miss the store is read; a not-found store answer returns
`none` WITHOUT touching the cache; a found user is serialized and cached
under `user:<id>`. -/
def get_user (w : World) (uid : String) :
    Except Unit (Option String) × World × List Event :=
  match cacheGet w.cache ("user:" ++ uid) with
  | some v => (Except.ok (some v), w, [])
  | none =>
    if w.storeOk then
      match findUser w.graph uid with
      | none => (Except.ok none, w, [Event.storeRead])
      | some u =>
        (Except.ok (some (serializeUser u (node_degree w.graph uid))),
         { w with cache := cacheSet w.cache ("user:" ++ uid)
                             (serializeUser u (node_degree w.graph uid)) },
         [Event.storeRead, Event.cachePopulate ("user:" ++ uid)])
    else (Except.error (), w, [Event.storeRead])

/-- The cache key used by `get_user_relationships`:
`user:<id>:relationships:<type|"all">`. -/
def rel_list_cache_key (uid : String) (rel_type : Option String) : String :=
  "user:" ++ uid ++ ":relationships:" ++ rel_type.getD "all"

/-- The relationship list read from the store by `get_user_relationships`:
edges incident to the user, optionally filtered by type (the ORDER BY is not
modelled). -/
def relationshipsOf (g : GraphState) (uid : String) (rel_type : Option String) :
    List Edge :=
  g.rels.filter (fun e =>
    (e.src == uid || e.dst == uid) &&
    (match rel_type with
     | none => true
     | some t => e.type == t))

/-- Stand-in for the `json.dumps` of the relationship list. -/
def serializeRels (rels : List Edge) : String :=
  String.intercalate "|" (rels.map (fun e => e.eid))

/-- `SocialGraphService.get_user_relationships`: cache-aside read over the
`user:<id>:relationships:<type|"all">` key. -/
def get_user_relationships (w : World) (uid : String) (rel_type : Option String) :
    Except Unit String × World × List Event :=
  match cacheGet w.cache (rel_list_cache_key uid rel_type) with
  | some v => (Except.ok v, w, [])
  | none =>
    if w.storeOk then
      (Except.ok (serializeRels (relationshipsOf w.graph uid rel_type)),
       { w with cache := cacheSet w.cache (rel_list_cache_key uid rel_type)
                           (serializeRels (relationshipsOf w.graph uid rel_type)) },
       [Event.storeRead, Event.cachePopulate (rel_list_cache_key uid rel_type)])
    else (Except.error (), w, [Event.storeRead])

/-! ### Claim C2: cache failure handling -/

/-- When the client is already connected, or connection establishment
succeeds, the connection prelude returns the connected client. -/
theorem ensureConnected_ok (cl : RedisClient) (b : RedisBehavior)
    (h : cl.connected = true ∨ b.connectFails = false) :
    ensureConnected cl b = Except.ok (connResult cl) := by
  rcases h with h | h
  · simp [ensureConnected, connResult, h]
  · cases hc : cl.connected <;>
      simp [ensureConnected, connResult, RedisCache.connect, h, hc]

/-- A behavior where establishing the connection fails. -/
def failingConnect : RedisBehavior :=
  RedisBehavior.mk true false [] (fun _ => 0)

/-- C2 counterexample: `get` on an unconnected instance whose connection
attempt fails raises the connection error to the caller — `connect` re-raises
and is called outside the try/except of every operation, so the claim that no
cache-store failure is ever raised to the caller is false. -/
theorem cache_get_raises_on_first_use :
    RedisCache.get (RedisClient.mk false) failingConnect "user:42" =
      Except.error CacheError.connectionFailed := rfl

/-- C2 (amended): provided the client is already connected or the lazy
connection succeeds, every cache operation returns without raising, and on a
cache-store command failure reads return the miss/empty/default value and
writes leave the store unchanged.  (Failure to establish the connection on
first use, by contrast, propagates to the caller.) -/
theorem cache_ops_degrade (cl : RedisClient) (b : RedisBehavior)
    (key value pat : String) (keys : List String)
    (mapping : List (String × String)) (amount : Int)
    (h : cl.connected = true ∨ b.connectFails = false) :
    (∃ out, RedisCache.get cl b key = Except.ok out ∧
       (b.opFails = true → out = (connResult cl, none))) ∧
    (∃ out, RedisCache.set cl b key value = Except.ok out ∧
       (b.opFails = true → out = (connResult cl, b.store, false))) ∧
    (∃ out, RedisCache.delete cl b key = Except.ok out ∧
       (b.opFails = true → out = (connResult cl, b.store))) ∧
    (∃ out, RedisCache.delete_pattern cl b pat = Except.ok out ∧
       (b.opFails = true → out = (connResult cl, b.store))) ∧
    (∃ out, RedisCache.get_many cl b keys = Except.ok out ∧
       (b.opFails = true → out = (connResult cl, []))) ∧
    (∃ out, RedisCache.set_many cl b mapping = Except.ok out ∧
       (b.opFails = true → out = (connResult cl, b.store, false))) ∧
    (∃ out, RedisCache.increment cl b key amount = Except.ok out ∧
       (b.opFails = true → out = (connResult cl, b.store, 0))) ∧
    (∃ out, RedisCache.get_ttl cl b key = Except.ok out ∧
       (b.opFails = true → out = (connResult cl, -1))) := by
  have he := ensureConnected_ok cl b h
  refine ⟨?_, ?_, ?_, ?_, ?_, ?_, ?_, ?_⟩
  · cases hop : b.opFails with
    | true =>
      exact ⟨(connResult cl, none), by simp [RedisCache.get, he, hop], fun _ => rfl⟩
    | false =>
      exact ⟨(connResult cl, cacheGet b.store key),
        by simp [RedisCache.get, he, hop], by simp [hop]⟩
  · cases hop : b.opFails with
    | true =>
      exact ⟨(connResult cl, b.store, false), by simp [RedisCache.set, he, hop], fun _ => rfl⟩
    | false =>
      exact ⟨(connResult cl, cacheSet b.store key value, true),
        by simp [RedisCache.set, he, hop], by simp [hop]⟩
  · cases hop : b.opFails with
    | true =>
      exact ⟨(connResult cl, b.store), by simp [RedisCache.delete, he, hop], fun _ => rfl⟩
    | false =>
      exact ⟨(connResult cl, cacheDelete b.store key),
        by simp [RedisCache.delete, he, hop], by simp [hop]⟩
  · cases hop : b.opFails with
    | true =>
      exact ⟨(connResult cl, b.store),
        by simp [RedisCache.delete_pattern, he, hop], fun _ => rfl⟩
    | false =>
      exact ⟨(connResult cl, b.store.filter (fun p => !(globMatch pat p.1))),
        by simp [RedisCache.delete_pattern, he, hop], by simp [hop]⟩
  · cases hop : b.opFails with
    | true =>
      exact ⟨(connResult cl, []), by simp [RedisCache.get_many, he, hop], fun _ => rfl⟩
    | false =>
      exact ⟨(connResult cl, keys.filterMap (fun k => (cacheGet b.store k).map (fun v => (k, v)))),
        by simp [RedisCache.get_many, he, hop], by simp [hop]⟩
  · cases hop : b.opFails with
    | true =>
      exact ⟨(connResult cl, b.store, false),
        by simp [RedisCache.set_many, he, hop], fun _ => rfl⟩
    | false =>
      exact ⟨(connResult cl, mapping.foldl (fun st kv => cacheSet st kv.1 kv.2) b.store, true),
        by simp [RedisCache.set_many, he, hop], by simp [hop]⟩
  · cases hop : b.opFails with
    | true =>
      exact ⟨(connResult cl, b.store, 0),
        by simp [RedisCache.increment, he, hop], fun _ => rfl⟩
    | false =>
      rcases hcg : cacheGet b.store key with _ | v
      · exact ⟨(connResult cl, cacheSet b.store key (toString amount), amount),
          by simp [RedisCache.increment, he, hop, hcg], by simp [hop]⟩
      · rcases hti : v.toInt? with _ | n
        · exact ⟨(connResult cl, b.store, 0),
            by simp [RedisCache.increment, he, hop, hcg, hti], by simp [hop]⟩
        · exact ⟨(connResult cl, cacheSet b.store key (toString (n + amount)), n + amount),
            by simp [RedisCache.increment, he, hop, hcg, hti], by simp [hop]⟩
  · cases hop : b.opFails with
    | true =>
      exact ⟨(connResult cl, -1), by simp [RedisCache.get_ttl, he, hop], fun _ => rfl⟩
    | false =>
      exact ⟨(connResult cl, b.ttlOf key),
        by simp [RedisCache.get_ttl, he, hop], by simp [hop]⟩

/-- A behavior where the connection succeeds but every command fails. -/
def failingCommands : RedisBehavior :=
  RedisBehavior.mk false true [("user:1", "v")] (fun _ => 30)

/-- Witness for C2 (amended) at a concrete connected client and a behavior
whose commands all fail. -/
theorem cache_ops_degrade_witness :
    (∃ out, RedisCache.get (RedisClient.mk true) failingCommands "user:1" = Except.ok out ∧
       (failingCommands.opFails = true → out = (connResult (RedisClient.mk true), none))) ∧
    (∃ out, RedisCache.set (RedisClient.mk true) failingCommands "user:1" "v2" = Except.ok out ∧
       (failingCommands.opFails = true →
         out = (connResult (RedisClient.mk true), failingCommands.store, false))) :=
  ⟨(cache_ops_degrade (RedisClient.mk true) failingCommands "user:1" "v2" "user:*"
      ["user:1"] [("a", "1")] 2 (Or.inl rfl)).1,
   (cache_ops_degrade (RedisClient.mk true) failingCommands "user:1" "v2" "user:*"
      ["user:1"] [("a", "1")] 2 (Or.inl rfl)).2.1⟩

/-! ### Claim C3: query parameterization -/

/-- C3 counterexample: the query text sent to the store is NOT a fixed string
independent of caller-supplied data — it changes with the update field names,
with `max_hops`, and with the bulk-creation label. -/
theorem query_text_depends_on_caller_data :
    update_user_query [("bio", "x")] ≠ update_user_query [("location", "x")] ∧
    shortest_path_query 2 ≠ shortest_path_query 3 ∧
    bulk_create_nodes_query "User" ≠ bulk_create_nodes_query "Account" := by
  refine ⟨?_, ?_, ?_⟩ <;> decide

/-- C3 (amended): caller-supplied VALUES never enter the query text — the
`update_user` text depends only on the field names, the `shortest_path` text
only on `max_hops` (not on the endpoint ids, which are bound parameters), and
the `bulk_create_nodes` text only on the label (the node property maps are
bound parameters) — but field names, `max_hops` and the label themselves are
string-interpolated into the query text. -/
theorem parameterized_queries_amended :
    (∀ u v : List (String × String), u.map Prod.fst = v.map Prod.fst →
        update_user_query u = update_user_query v) ∧
    (∀ s t s2 t2 : String, ∀ h : Nat,
        (shortest_path_call s t h).1 = (shortest_path_call s2 t2 h).1) ∧
    (∀ ns ns2 : List (List (String × String)), ∀ label : String,
        (bulk_create_nodes_call ns label).1 = (bulk_create_nodes_call ns2 label).1) := by
  refine ⟨?_, ?_, ?_⟩
  · intro u v h
    simp [update_user_query, h]
  · intro _ _ _ _ _
    rfl
  · intro _ _ _
    rfl

/-- Witness for C3 (amended): two update dictionaries with the same field
names and different values produce the same query text. -/
theorem parameterized_queries_amended_witness :
    update_user_query [("bio", "x")] = update_user_query [("bio", "yy")] :=
  parameterized_queries_amended.1 [("bio", "x")] [("bio", "yy")] rfl

/-! ### Claim C4: write-before-invalidate ordering -/

/-- Scan of a trace checking that every cache invalidation is preceded by a
completed store write; the flag records whether a store write has completed. -/
def invAfterWriteAux : Bool → List Event → Bool
  | _, [] => true
  | _, Event.storeWrite :: rest => invAfterWriteAux true rest
  | seen, Event.cacheInvalidate _ :: rest => seen && invAfterWriteAux seen rest
  | seen, _ :: rest => invAfterWriteAux seen rest

/-- Every cache invalidation in the trace happens after a store write. -/
def invAfterWrite (tr : List Event) : Bool := invAfterWriteAux false tr

/-- C4: for every single mutating domain operation, in every execution
(store write succeeding or failing, entities existing or not) the store write
completes before any cache invalidation for that mutation is issued. -/
theorem mutation_store_write_before_invalidation (w : World)
    (uid rid rel_id rel_id2 now : String)
    (props updates : List (String × String)) (d : RelationshipCreate) :
    invAfterWrite (create_user w uid props).2.2 = true ∧
    invAfterWrite (update_user w uid updates).2.2 = true ∧
    invAfterWrite (delete_user w uid).2 = true ∧
    invAfterWrite (create_relationship w d rel_id rel_id2 now).2.2 = true ∧
    invAfterWrite (delete_relationship w rid).2 = true := by
  refine ⟨?_, ?_, ?_, ?_, ?_⟩
  · cases hs : w.storeOk <;> simp [create_user, hs, invAfterWrite, invAfterWriteAux]
  · cases hs : w.storeOk <;> simp [update_user, hs, invAfterWrite, invAfterWriteAux]
  · cases hs : w.storeOk <;> simp [delete_user, hs, invAfterWrite, invAfterWriteAux]
  · cases hs : w.storeOk
    · simp [create_relationship, hs, invAfterWrite, invAfterWriteAux]
    · cases hm : db_create_relationship w.graph d rel_id rel_id2 now <;>
        simp [create_relationship, hs, hm, invAfterWrite, invAfterWriteAux]
  · cases hs : w.storeOk <;> simp [delete_relationship, hs, invAfterWrite, invAfterWriteAux]

/-! ### Claim C1: relationship-mutation cache invalidation -/

/-- A graph with users A and B and one FOLLOWS relationship r1 from A to B. -/
def c1Graph : GraphState :=
  GraphState.mk [UserNode.mk "A" [], UserNode.mk "B" []]
    [mkEdge "r1" "A" "B" "FOLLOWS" 1 [] "t0"]

/-- The starting world for the C1 scenario: empty cache, healthy store. -/
def c1World : World := World.mk c1Graph [] true

/-- The world after `get_user_relationships("A")` populated the cache under
the key `user:A:relationships:all`. -/
def c1Primed : World := (get_user_relationships c1World "A" none).2.1

/-- C1 evaluated at its failing input: the key `user:A:relationships:all`
(which matches `user:A:relationships:*`) is populated by
`get_user_relationships`, yet after `create_relationship` between A and B
returns it is still present — the mutation deletes only the suffix-less key
`user:A:relationships` — and `delete_relationship` leaves the whole cache
untouched.  Both endpoints therefore keep serving the stale pre-mutation
relationship list. -/
theorem relationship_mutation_leaves_stale_cache :
    globMatch "user:A:relationships:*" "user:A:relationships:all" = true ∧
    cacheGet c1Primed.cache "user:A:relationships:all" =
      some (serializeRels (relationshipsOf c1Graph "A" none)) ∧
    cacheGet ((create_relationship c1Primed
        (RelationshipCreate.mk "A" "B" "FOLLOWS" 1 [] false) "r2" "r2b" "t1").2.1.cache)
        "user:A:relationships:all" =
      some (serializeRels (relationshipsOf c1Graph "A" none)) ∧
    (delete_relationship c1Primed "r1").1.cache = c1Primed.cache := by
  refine ⟨?_, ?_, ?_, ?_⟩ <;> decide

/-! ### Claim C10: get_user leaves the cache unchanged on not-found -/

/-- C10: when the cache misses and the store finds no user, `get_user`
returns the not-found result and the world — in particular the cache — is
exactly unchanged (no negative caching); conversely, the only way `get_user`
can change the cache is that the store found the user. -/
theorem get_user_not_found_frame (w : World) (uid : String) :
    (cacheGet w.cache ("user:" ++ uid) = none → findUser w.graph uid = none →
       w.storeOk = true → get_user w uid = (Except.ok none, w, [Event.storeRead])) ∧
    ((get_user w uid).2.1.cache ≠ w.cache → ∃ u, findUser w.graph uid = some u) := by
  constructor
  · intro hc hf hs
    simp [get_user, hc, hf, hs]
  · intro hne
    rcases hcg : cacheGet w.cache ("user:" ++ uid) with _ | v
    · cases hs : w.storeOk
      · simp [get_user, hcg, hs] at hne
      · rcases hf : findUser w.graph uid with _ | u
        · simp [get_user, hcg, hs, hf] at hne
        · exact ⟨u, rfl⟩
    · simp [get_user, hcg] at hne

/-- A world with nothing in the store and nothing in the cache. -/
def emptyWorld : World := World.mk (GraphState.mk [] []) [] true

/-- Witness for C10 at a concrete world with no users. -/
theorem get_user_not_found_frame_witness :
    get_user emptyWorld "missing" = (Except.ok none, emptyWorld, [Event.storeRead]) :=
  (get_user_not_found_frame emptyWorld "missing").1 rfl rfl rfl

/-! ### Claim C8: bidirectional relationship creation -/

/-- C8: for existing endpoints, a bidirectional `create_relationship` with
its two freshly generated ids creates exactly the two directed edges, forward
and backward, with distinct ids and the same creation timestamp, and
`delete_relationship` on either id removes exactly that edge, leaving the
other in place. -/
theorem bidirectional_relationship (g : GraphState) (d : RelationshipCreate)
    (rid rid2 now : String)
    (hfrom : user_exists g d.from_user_id = true)
    (hto : user_exists g d.to_user_id = true)
    (hbi : d.bidirectional = true)
    (hne : rid ≠ rid2)
    (hfresh1 : ∀ e ∈ g.rels, e.eid ≠ rid)
    (hfresh2 : ∀ e ∈ g.rels, e.eid ≠ rid2) :
    db_create_relationship g d rid rid2 now =
      some { g with rels := g.rels ++ [forwardEdge d rid now, backwardEdge d rid2 now] } ∧
    (forwardEdge d rid now).eid ≠ (backwardEdge d rid2 now).eid ∧
    (forwardEdge d rid now).created_at = (backwardEdge d rid2 now).created_at ∧
    db_delete_relationship
        { g with rels := g.rels ++ [forwardEdge d rid now, backwardEdge d rid2 now] } rid =
      { g with rels := g.rels ++ [backwardEdge d rid2 now] } ∧
    db_delete_relationship
        { g with rels := g.rels ++ [forwardEdge d rid now, backwardEdge d rid2 now] } rid2 =
      { g with rels := g.rels ++ [forwardEdge d rid now] } := by
  have h1 : g.rels.filter (fun e => e.eid != rid) = g.rels :=
    List.filter_eq_self.mpr (fun e he => bne_iff_ne.mpr (hfresh1 e he))
  have h2 : g.rels.filter (fun e => e.eid != rid2) = g.rels :=
    List.filter_eq_self.mpr (fun e he => bne_iff_ne.mpr (hfresh2 e he))
  have hne2 : rid2 ≠ rid := Ne.symm hne
  refine ⟨?_, ?_, rfl, ?_, ?_⟩
  · simp [db_create_relationship, hfrom, hto, hbi]
  · simpa [forwardEdge, backwardEdge, mkEdge] using hne
  · simp [db_delete_relationship, List.filter_append, h1, forwardEdge, backwardEdge,
      mkEdge, bne_iff_ne, hne2]
  · simp [db_delete_relationship, List.filter_append, h2, forwardEdge, backwardEdge,
      mkEdge, bne_iff_ne, hne]

/-- Users A and B with no relationships. -/
def pairGraph : GraphState :=
  GraphState.mk [UserNode.mk "A" [], UserNode.mk "B" []] []

/-- A bidirectional FRIEND request from A to B. -/
def biCreate : RelationshipCreate :=
  RelationshipCreate.mk "A" "B" "FRIEND" 1 [] true

/-- Witness for C8 at the concrete two-user graph. -/
theorem bidirectional_relationship_witness :
    db_create_relationship pairGraph biCreate "r1" "r2" "t0" =
      some { pairGraph with
               rels := pairGraph.rels ++
                 [forwardEdge biCreate "r1" "t0", backwardEdge biCreate "r2" "t0"] } ∧
    (forwardEdge biCreate "r1" "t0").eid ≠ (backwardEdge biCreate "r2" "t0").eid ∧
    (forwardEdge biCreate "r1" "t0").created_at =
      (backwardEdge biCreate "r2" "t0").created_at ∧
    db_delete_relationship
        { pairGraph with
            rels := pairGraph.rels ++
              [forwardEdge biCreate "r1" "t0", backwardEdge biCreate "r2" "t0"] } "r1" =
      { pairGraph with rels := pairGraph.rels ++ [backwardEdge biCreate "r2" "t0"] } ∧
    db_delete_relationship
        { pairGraph with
            rels := pairGraph.rels ++
              [forwardEdge biCreate "r1" "t0", backwardEdge biCreate "r2" "t0"] } "r2" =
      { pairGraph with rels := pairGraph.rels ++ [forwardEdge biCreate "r1" "t0"] } :=
  bidirectional_relationship pairGraph biCreate "r1" "r2" "t0" (by decide) (by decide) rfl
    (by decide) (by simp [pairGraph]) (by simp [pairGraph])

/-! ### Claim C6: influence score -/

/-- The result of `centrality_measures` (database.py): the three measures. -/
structure Centrality where
  degree : ℚ
  betweenness : ℚ
  closeness : ℚ
deriving DecidableEq, Repr

/-- `centrality_measures`: the degree is the incident-edge count from the
store; betweenness and closeness come from the analytics routines, each
independently defaulting to 0 when its sub-query fails or returns no row
(modelled by `none`). -/
def centrality_measures (g : GraphState) (uid : String) (betw clos : Option ℚ) :
    Centrality :=
  Centrality.mk (node_degree g uid : ℚ) (betw.getD 0) (clos.getD 0)

/-- The weighted combination computed by `calculate_influence_score`. -/
def influence_weighted (c : Centrality) : ℚ :=
  c.degree * (3 / 10) + c.betweenness * (4 / 10) + c.closeness * (3 / 10)

/-- `calculate_influence_score`: `min(100, score * 10)`. -/
def calculate_influence_score (c : Centrality) : ℚ :=
  min 100 (influence_weighted c * 10)

/-- C6: the influence score is the weighted centrality sum scaled by 10 and
clamped to [0, 100]; for the nonnegative measures produced by
`centrality_measures` the upper-only `min` in the code coincides with the
two-sided clamp, so the result is never below 0 nor above 100. -/
theorem influence_score_formula_and_bounds (g : GraphState) (uid : String)
    (betw clos : Option ℚ)
    (hb : ∀ x, betw = some x → 0 ≤ x) (hc : ∀ x, clos = some x → 0 ≤ x) :
    calculate_influence_score (centrality_measures g uid betw clos) =
      min 100 (influence_weighted (centrality_measures g uid betw clos) * 10) ∧
    calculate_influence_score (centrality_measures g uid betw clos) =
      max 0 (min 100 (influence_weighted (centrality_measures g uid betw clos) * 10)) ∧
    0 ≤ calculate_influence_score (centrality_measures g uid betw clos) ∧
    calculate_influence_score (centrality_measures g uid betw clos) ≤ 100 := by
  have hd : (0 : ℚ) ≤ (centrality_measures g uid betw clos).degree := by
    simp [centrality_measures]
  have hbet : (0 : ℚ) ≤ (centrality_measures g uid betw clos).betweenness := by
    rcases hob : betw with _ | x
    · simp [centrality_measures]
    · simpa [centrality_measures] using hb x hob
  have hclo : (0 : ℚ) ≤ (centrality_measures g uid betw clos).closeness := by
    rcases hoc : clos with _ | x
    · simp [centrality_measures]
    · simpa [centrality_measures] using hc x hoc
  have hw : (0 : ℚ) ≤ influence_weighted (centrality_measures g uid betw clos) := by
    have h1 : (0 : ℚ) ≤ (centrality_measures g uid betw clos).degree * (3 / 10) :=
      mul_nonneg hd (by norm_num)
    have h2 : (0 : ℚ) ≤ (centrality_measures g uid betw clos).betweenness * (4 / 10) :=
      mul_nonneg hbet (by norm_num)
    have h3 : (0 : ℚ) ≤ (centrality_measures g uid betw clos).closeness * (3 / 10) :=
      mul_nonneg hclo (by norm_num)
    unfold influence_weighted
    linarith
  have h0 : (0 : ℚ) ≤
      min 100 (influence_weighted (centrality_measures g uid betw clos) * 10) :=
    le_min (by norm_num) (mul_nonneg hw (by norm_num))
  refine ⟨rfl, (max_eq_right h0).symm, h0, min_le_left _ _⟩

/-- A one-user graph with no relationships. -/
def soloGraph : GraphState := GraphState.mk [UserNode.mk "A" []] []

/-- Witness for C6 with a successful betweenness sub-query and a failed
closeness sub-query. -/
theorem influence_score_bounds_witness :
    0 ≤ calculate_influence_score (centrality_measures soloGraph "A" (some 2) none) ∧
    calculate_influence_score (centrality_measures soloGraph "A" (some 2) none) ≤ 100 :=
  (influence_score_formula_and_bounds soloGraph "A" (some 2) none
    (fun x h => by cases h; norm_num) (fun x h => by cases h)).2.2

/-! ### Claim C7: community density -/

/-- The edge count among community members, from the query
`MATCH (a:User)-[r:RELATES_TO]-(b:User) WHERE a.id IN $ids AND b.id IN $ids
AND a.id < b.id RETURN count(r)`: the undirected pattern matches each edge in
both orientations and the `a.id < b.id` filter keeps exactly one of them, so
the count is the number of non-loop edges with both endpoints among the
members. -/
def community_edge_count (g : GraphState) (ids : List String) : Nat :=
  (g.rels.filter (fun e =>
    ids.contains e.src && ids.contains e.dst && e.src != e.dst)).length

/-- `_calculate_community_density`: 0 for fewer than two members, otherwise
`edge_count / max_edges` with `max_edges = n*(n-1)/2`, itself guarded by
`if max_edges > 0`. -/
def calculate_community_density (g : GraphState) (members : List String) : ℚ :=
  if members.length < 2 then 0
  else
    let max_edges : ℚ := ((members.length * (members.length - 1) : ℕ) : ℚ) / 2
    if 0 < max_edges then (community_edge_count g members : ℚ) / max_edges else 0

/-- C7: community density is edge count over n*(n-1)/2; for 0 or 1 members
it is exactly 0 via the guard, and whenever a division is performed the
denominator is strictly positive. -/
theorem community_density_guarded (g : GraphState) (members : List String) :
    (members.length < 2 → calculate_community_density g members = 0) ∧
    (2 ≤ members.length →
       0 < ((members.length * (members.length - 1) : ℕ) : ℚ) / 2 ∧
       calculate_community_density g members =
         (community_edge_count g members : ℚ) /
           (((members.length * (members.length - 1) : ℕ) : ℚ) / 2)) := by
  constructor
  · intro h
    simp [calculate_community_density, h]
  · intro h
    have hn : 2 ≤ members.length * (members.length - 1) := by
      have h1 : 1 ≤ members.length - 1 := by omega
      calc 2 = 2 * 1 := by norm_num
        _ ≤ members.length * (members.length - 1) := Nat.mul_le_mul h h1
    have hq : (0 : ℚ) < ((members.length * (members.length - 1) : ℕ) : ℚ) / 2 := by
      have h2 : (2 : ℚ) ≤ ((members.length * (members.length - 1) : ℕ) : ℚ) := by
        exact_mod_cast hn
      linarith
    have hlt : ¬ members.length < 2 := by omega
    refine ⟨hq, ?_⟩
    simp [calculate_community_density, hlt, hq]
    intro hle
    exfalso
    push_cast at hq
    linarith

/-- Witness for C7: the two cases at concrete inputs — a single-member
community has density 0, and a two-member community divides by the positive
denominator 1. -/
theorem community_density_guarded_witness :
    calculate_community_density pairGraph ["A"] = 0 ∧
    (0 < (((["A", "B"].length * (["A", "B"].length - 1) : ℕ)) : ℚ) / 2 ∧
     calculate_community_density pairGraph ["A", "B"] =
       (community_edge_count pairGraph ["A", "B"] : ℚ) /
         (((["A", "B"].length * (["A", "B"].length - 1) : ℕ) : ℚ) / 2)) :=
  ⟨(community_density_guarded pairGraph ["A"]).1 (by norm_num),
   (community_density_guarded pairGraph ["A", "B"]).2 (by norm_num)⟩

/-! ### Claim C9: statistics average degree -/

/-- The single result row of `database.get_statistics`. -/
structure DbStats where
  total_nodes : Nat
  total_relationships : Nat
  total_users : Nat
  avg_degree : ℚ
deriving DecidableEq, Repr

/-- `database.get_statistics`: the chained `MATCH ... WITH count ...` query
produces NO row when the graph has no relationships or no `User` nodes — a
Cypher aggregation grouped by an earlier count over zero rows yields zero
rows, and the Python wrapper then returns the empty dict — and otherwise one
row with `avg_degree = toFloat(rel_count) / toFloat(node_count)`. -/
def db_get_statistics (node_count rel_count user_count : Nat) : Option DbStats :=
  if rel_count = 0 ∨ user_count = 0 then none
  else some (DbStats.mk node_count rel_count user_count
    ((rel_count : ℚ) / (node_count : ℚ)))

/-- The numeric fields of the assembled GraphStatistics (the per-type
histograms come from separate queries and are not modelled). -/
structure GraphStatistics where
  total_nodes : Nat
  total_relationships : Nat
  average_degree : ℚ
  graph_density : ℚ
deriving DecidableEq, Repr

/-- `SocialGraphService.get_statistics`: every field is read from the stats
dict with `.get(key, 0)` defaults, and
`graph_density = total_relationships / max(total_nodes ** 2, 1)`. -/
def svc_get_statistics (node_count rel_count user_count : Nat) : GraphStatistics :=
  let stats := db_get_statistics node_count rel_count user_count
  let tn := (stats.map DbStats.total_nodes).getD 0
  let tr := (stats.map DbStats.total_relationships).getD 0
  let ad := (stats.map DbStats.avg_degree).getD 0
  GraphStatistics.mk tn tr ad ((tr : ℚ) / ((max (tn ^ 2) 1 : ℕ) : ℚ))

/-- C9: for every graph (any relationship count with endpoints implying at
least as many nodes), the returned average degree satisfies
`average_degree * total_nodes = total_relationships` — i.e. it is total
relationships over total nodes wherever that ratio is defined and 0 in the
degenerate no-row cases — and whenever the store query performs its division
the node count is strictly positive, so no division error can occur even for
graphs with zero nodes or zero relationships. -/
theorem statistics_average_degree (n r u : Nat) (hgraph : 0 < r → 0 < n) :
    (svc_get_statistics n r u).average_degree *
        ((svc_get_statistics n r u).total_nodes : ℚ) =
      ((svc_get_statistics n r u).total_relationships : ℚ) ∧
    (∀ d, db_get_statistics n r u = some d → 0 < d.total_nodes) := by
  by_cases hz : r = 0 ∨ u = 0
  · constructor
    · simp [svc_get_statistics, db_get_statistics, hz]
    · intro d hd
      simp [db_get_statistics, hz] at hd
  · push_neg at hz
    obtain ⟨hr, hu⟩ := hz
    have hn : 0 < n := hgraph (Nat.pos_of_ne_zero hr)
    have hnq : (n : ℚ) ≠ 0 := Nat.cast_ne_zero.mpr (Nat.pos_iff_ne_zero.mp hn)
    constructor
    · simp only [svc_get_statistics, db_get_statistics, if_neg (by tauto : ¬(r = 0 ∨ u = 0)),
        Option.map_some, Option.getD_some]
      exact div_mul_cancel₀ _ hnq
    · intro d hd
      simp only [db_get_statistics, if_neg (by tauto : ¬(r = 0 ∨ u = 0)),
        Option.some.injEq] at hd
      rw [← hd]
      exact hn

/-- Witness for C9 at a two-node, one-relationship graph. -/
theorem statistics_average_degree_witness :
    (svc_get_statistics 2 1 2).average_degree *
        ((svc_get_statistics 2 1 2).total_nodes : ℚ) =
      ((svc_get_statistics 2 1 2).total_relationships : ℚ) ∧
    (∀ d, db_get_statistics 2 1 2 = some d → 0 < d.total_nodes) :=
  statistics_average_degree 2 1 2 (fun _ => by norm_num)

/-! ### Claim C5: recommendation exclusion

Embedding of the `recommend_connections` Cypher query: variable-length
undirected `RELATES_TO` walks of 2 to 3 hops with pairwise-distinct
relationships (Cypher relationship-uniqueness), the `WHERE NOT
(u)-[:RELATES_TO]-(recommended) AND u <> recommended` filter, grouping by
endpoint with `COUNT(*)`, descending order and `LIMIT`, then the second
`MATCH` collecting distinct mutual neighbours (dropping rows with none). -/

/-- Whether an undirected `RELATES_TO` pattern connects `a` and `b`. -/
def rel_adj (g : GraphState) (a b : String) : Bool :=
  g.rels.any (fun e => (e.src == a && e.dst == b) || (e.src == b && e.dst == a))

/-- Traverse an edge undirected starting at `x`, giving the other endpoint. -/
def edgeOther (e : Edge) (x : String) : Option String :=
  if e.src == x then some e.dst else if e.dst == x then some e.src else none

/-- One-hop extensions from node `x` avoiding the already-used edge indices. -/
def stepsFrom (g : GraphState) (x : String) (used : List Nat) : List (Nat × String) :=
  g.rels.enum.filterMap (fun ie =>
    if used.contains ie.1 then none
    else (edgeOther ie.2 x).map (fun y => (ie.1, y)))

/-- Extend every walk in the frontier by one unused relationship. -/
def extendWalks (g : GraphState) (frontier : List (List Nat × String)) :
    List (List Nat × String) :=
  frontier.flatMap (fun p => (stepsFrom g p.2 p.1).map (fun iy => (p.1 ++ [iy.1], iy.2)))

/-- All walks of exactly `n` pairwise-distinct relationships from `uid`,
as (used edge indices, end node). -/
def walksFrom (g : GraphState) (uid : String) : Nat → List (List Nat × String)
  | 0 => [([], uid)]
  | n + 1 => extendWalks g (walksFrom g uid n)

/-- One row per 2-hop or 3-hop walk: the reached `recommended` node. -/
def rec_walk_rows (g : GraphState) (uid : String) : List String :=
  (walksFrom g uid 2 ++ walksFrom g uid 3).map Prod.snd

/-- The rows surviving `WHERE NOT (u)-[:RELATES_TO]-(recommended) AND
u <> recommended`. -/
def rec_filtered_rows (g : GraphState) (uid : String) : List String :=
  (rec_walk_rows g uid).filter (fun r => !(rel_adj g uid r) && r != uid)

/-- `WITH recommended, COUNT(*) as mutual_count`: group the surviving rows by
endpoint with their multiplicities. -/
def rec_counts (g : GraphState) (uid : String) : List (String × Nat) :=
  (rec_filtered_rows g uid).dedup.map
    (fun r => (r, (rec_filtered_rows g uid).count r))

/-- Insertion into a list kept in descending `mutual_count` order. -/
def insertByCount (x : String × Nat) : List (String × Nat) → List (String × Nat)
  | [] => [x]
  | y :: ys => if y.2 ≤ x.2 then x :: y :: ys else y :: insertByCount x ys

/-- `ORDER BY mutual_count DESC` as insertion sort. -/
def sortByCountDesc : List (String × Nat) → List (String × Nat)
  | [] => []
  | x :: xs => insertByCount x (sortByCountDesc xs)

/-- The distinct neighbours of `uid` (rows of `(u)-[:RELATES_TO]-(mutual)`). -/
def neighbors (g : GraphState) (uid : String) : List String :=
  (g.rels.filterMap (fun e =>
    if e.src == uid then some e.dst
    else if e.dst == uid then some e.src else none)).dedup

/-- `COLLECT(DISTINCT mutual)` for one recommended node: the neighbours of
`uid` also adjacent to it. -/
def mutual_connections (g : GraphState) (uid r : String) : List String :=
  (neighbors g uid).filter (fun m => rel_adj g m r)

/-- One assembled recommendation (models.RecommendationResult). -/
structure RecommendationResult where
  user : String
  score : ℚ
  mutual_connections : List String
deriving DecidableEq, Repr

/-- `SocialGraphService.recommend_connections`: rank the filtered candidates
by mutual count, truncate to `limit`, and attach up to 5 mutual connections
with `score = mutual_count / 10.0`; a candidate whose second `MATCH` finds no
mutual row is dropped. -/
def recommend_connections (g : GraphState) (uid : String) (limit : Nat) :
    List RecommendationResult :=
  ((sortByCountDesc (rec_counts g uid)).take limit).filterMap (fun rc =>
    if mutual_connections g uid rc.1 = [] then none
    else some (RecommendationResult.mk rc.1 ((rc.2 : ℚ) / 10)
      ((mutual_connections g uid rc.1).take 5)))

/-- Membership is preserved backwards through `insertByCount`. -/
theorem mem_insertByCount : ∀ {x y : String × Nat} {l : List (String × Nat)},
    y ∈ insertByCount x l → y = x ∨ y ∈ l
  | _, _, [], h => by simpa [insertByCount] using h
  | x, y, a :: as, h => by
    by_cases hc : a.2 ≤ x.2
    · simp only [insertByCount, if_pos hc] at h
      exact (List.mem_cons.mp h).imp id id
    · simp only [insertByCount, if_neg hc] at h
      rcases List.mem_cons.mp h with h1 | h1
      · exact Or.inr (by simp [h1])
      · rcases mem_insertByCount h1 with h2 | h2
        · exact Or.inl h2
        · exact Or.inr (by simp [h2])

/-- Membership is preserved backwards through the descending sort. -/
theorem mem_sortByCountDesc : ∀ {y : String × Nat} {l : List (String × Nat)},
    y ∈ sortByCountDesc l → y ∈ l
  | _, [], h => by simp [sortByCountDesc] at h
  | y, a :: as, h => by
    rcases mem_insertByCount
        (show y ∈ insertByCount a (sortByCountDesc as) from h) with h1 | h1
    · simp [h1]
    · simp [mem_sortByCountDesc h1]

/-- Membership in a `take` prefix implies membership in the list. -/
theorem mem_of_mem_take_list {α : Type} : ∀ {a : α} {n : Nat} {l : List α},
    a ∈ l.take n → a ∈ l
  | _, _, [], h => by simp at h
  | _, 0, _ :: _, h => by simp at h
  | a, n + 1, x :: xs, h => by
    rcases List.mem_cons.mp (by simpa using h) with h1 | h1
    · simp [h1]
    · exact List.mem_cons_of_mem x (mem_of_mem_take_list h1)

/-- C5: no recommendation ever names the source user or a user directly
connected to the source — the `WHERE` filter is applied before grouping,
ranking and truncation, so every surviving endpoint satisfies it. -/
theorem recommend_connections_excludes (g : GraphState) (uid : String) (limit : Nat) :
    (recommend_connections g uid limit).all
      (fun rr => rr.user != uid && !(rel_adj g uid rr.user)) = true := by
  rw [List.all_eq_true]
  intro rr hrr
  obtain ⟨rc, hin, heq⟩ := List.mem_filterMap.mp hrr
  by_cases hms : mutual_connections g uid rc.1 = []
  · rw [if_pos hms] at heq
    cases heq
  · rw [if_neg hms] at heq
    have hruser : rr.user = rc.1 := by
      cases heq
      rfl
    have h1 : rc ∈ sortByCountDesc (rec_counts g uid) := mem_of_mem_take_list hin
    have h2 : rc ∈ rec_counts g uid := mem_sortByCountDesc h1
    obtain ⟨r, hrdedup, hrc⟩ := List.mem_map.mp h2
    have hr1 : rc.1 = r := by
      rw [← hrc]
    have h3 : r ∈ rec_filtered_rows g uid := List.mem_dedup.mp hrdedup
    have h4 := (List.mem_filter.mp h3).2
    rw [Bool.and_eq_true] at h4
    rw [hruser, hr1]
    rw [Bool.and_eq_true]
    exact ⟨h4.2, h4.1⟩
